import Mathlib

/-!
Shallow embedding of the CDK stack `usecase_1/usecase_1/usecase_1_stack.py`
(class `Usecase1Stack`).  The stack assembles, at deployment time:

* two S3 buckets (a source bucket with EventBridge notifications enabled
  and a transformed/destination bucket without them),
* an SNS topic with one e-mail subscription,
* two IAM roles (one for Step Functions, one for Glue),
* a Glue database, crawler and ETL job,
* a Step Functions state machine whose definition is a Parallel state with
  two branches (start crawler, run ETL job synchronously) chained into an
  SNS publish task, with a 15 minute execution timeout,
* an EventBridge rule matching "Object Created" events of the source bucket,
  targeting the state machine.

The definitions below mirror the constructs and literal values of the
source file.  On top of the static configuration we give the standard
execution semantics of the declared workflow (branch outcomes, retries,
timeouts, the published messages) so that the behavioural claims can be
stated and proved.
-/

namespace Usecase1

/-! ## Buckets (source lines 30-37) -/

/-- An S3 bucket as declared by `s3.Bucket(...)`: its fixed name and whether
`event_bridge_enabled=True` was passed. -/
structure Bucket where
  bucketName : String
  eventBridgeEnabled : Bool
deriving DecidableEq

/-- `source_bucket = s3.Bucket(self, "DataSourceBucket", bucket_name="source-bucky-2009-apsouth1", event_bridge_enabled=True)`. -/
def source_bucket : Bucket :=
  { bucketName := "source-bucky-2009-apsouth1", eventBridgeEnabled := true }

/-- `transformed_bucket = s3.Bucket(self, "TransformedBucket", bucket_name="transform-bucky-2009-apsouth1")`;
`event_bridge_enabled` is not passed, so it defaults to off. -/
def transformed_bucket : Bucket :=
  { bucketName := "transform-bucky-2009-apsouth1", eventBridgeEnabled := false }

/-! ## SNS topic (source lines 22-28) -/

/-- The SNS topic `sns.Topic(self, "S3UploadNotificationCDKTopic", display_name=...)`
with the single e-mail subscription added to it. -/
structure Topic where
  constructId : String
  displayName : String
  subscriptions : List String
deriving DecidableEq

/-- `sns_topic`, with the e-mail subscription of line 28. -/
def sns_topic : Topic :=
  { constructId := "S3UploadNotificationCDKTopic"
  , displayName := "S3 Upload Notifications created by CDK"
  , subscriptions := ["a.rudrabatla@nitcoinc.in"] }

/-! ## Glue database, crawler and job (source lines 78-131) -/

/-- `glue.CfnDatabase` input (lines 79-87). -/
structure CfnDatabase where
  name : String
  description : String
deriving DecidableEq

def glue_database : CfnDatabase :=
  { name := "db_usecase", description := "A Glue database for storing metadata" }

/-- `glue.CfnCrawler` (lines 90-105): name, database, the single S3 target
path (the source bucket) and the table name text prepended by the crawler. -/
structure CfnCrawler where
  name : String
  databaseName : String
  s3TargetPaths : List String
  tableNameHead : String
  description : String
deriving DecidableEq

def glue_crawler : CfnCrawler :=
  { name := "crawl_on_usecase"
  , databaseName := glue_database.name
  , s3TargetPaths := [source_bucket.bucketName]
  , tableNameHead := "demo_"
  , description := "Crawler to crawl data from the source bucket" }

/-- `glue.CfnJob` (lines 110-131): the ETL job with its command, default
arguments, `max_retries=1`, `timeout=10` (minutes) and worker settings. -/
structure CfnJob where
  name : String
  commandName : String
  scriptLocation : String
  pythonVersion : String
  defaultArguments : List (String × String)
  maxRetries : Nat
  timeoutMinutes : Nat
  glueVersion : String
  numberOfWorkers : Nat
  workerType : String
deriving DecidableEq

def glue_job : CfnJob :=
  { name := "my-Etl-Job"
  , commandName := "glueetl"
  , scriptLocation := "s3://etl-script-bucky-2009-apsouth1/etl_script.py"
  , pythonVersion := "3"
  , defaultArguments :=
      [ ("--job-bookmark-option", "job-bookmark-enable")
      , ("--enable-metrics", "")
      , ("--source_bucket", source_bucket.bucketName)
      , ("--destination_bucket", transformed_bucket.bucketName) ]
  , maxRetries := 1
  , timeoutMinutes := 10
  , glueVersion := "3.0"
  , numberOfWorkers := 2
  , workerType := "Standard" }

/-! ## IAM roles and permission grants (source lines 39-76, 133-147)

Deploy-time values `self.region` / `self.account` are opaque at assembly
time; they are modelled by fixed placeholder strings, no claim depends on
their concrete value. -/

def regionName : String := "<region>"
def accountId : String := "<account>"

/-- One `iam.PolicyStatement(actions=..., resources=...)`.  Both actions
and resources may end in the AWS wildcard character. -/
structure PolicyStatement where
  actions : List String
  resources : List String
deriving DecidableEq

/-- Character-list test: `isPre cs ds` holds when `cs` is an initial
segment of `ds`. -/
def isPre : List Char → List Char → Bool
  | [], _ => true
  | _ :: _, [] => false
  | c :: cs, d :: ds => c == d && isPre cs ds

/-- Whether a pattern ends in the AWS wildcard character. -/
def lastIsStar (pat : String) : Bool :=
  match pat.toList.getLast? with
  | some c => c == '*'
  | none => false

/-- AWS wildcard matching for policy actions/resources: `*` as last
character matches any completion of what comes before it. -/
def patMatches (pat s : String) : Bool :=
  if lastIsStar pat then isPre pat.toList.dropLast s.toList else pat == s

/-- An AWS managed policy referenced by
`iam.ManagedPolicy.from_aws_managed_policy_name`, with the statements it
carries. -/
structure ManagedPolicy where
  policyName : String
  statements : List PolicyStatement
deriving DecidableEq

/-- The AWS managed policy `AmazonS3FullAccess`: its (AWS-defined) content
allows every S3 action (`s3:*`) and every S3 Object Lambda action on every
resource.  Only the `s3:*`-on-`*` statement matters for the claims. -/
def amazonS3FullAccess : ManagedPolicy :=
  { policyName := "AmazonS3FullAccess"
  , statements := [ { actions := ["s3:*", "s3-object-lambda:*"], resources := ["*"] } ] }

/-- The AWS managed policy `service-role/AWSGlueServiceRole`.  Its
(AWS-defined) content is a broad grant for the Glue service; it is
under-approximated here by the empty statement list, which is sound for
every claim below (claims about over-granting are established through
`amazonS3FullAccess` alone). -/
def awsGlueServiceRole : ManagedPolicy :=
  { policyName := "service-role/AWSGlueServiceRole", statements := [] }

/-- An `iam.Role` with the managed policies attached at construction and
the statements added by `add_to_policy`. -/
structure RoleDef where
  constructId : String
  assumedBy : String
  managedPolicies : List ManagedPolicy
  inlineStatements : List PolicyStatement
deriving DecidableEq

/-- All statements effective on a role. -/
def RoleDef.statements (r : RoleDef) : List PolicyStatement :=
  (r.managedPolicies.map ManagedPolicy.statements).foldr (· ++ ·) [] ++ r.inlineStatements

/-- Whether the role's grants allow `action` on `resource`. -/
def RoleDef.allows (r : RoleDef) (action resource : String) : Bool :=
  r.statements.any fun st =>
    st.actions.any (fun pat => patMatches pat action) &&
    st.resources.any (fun pat => patMatches pat resource)

/-- ARN of an S3 bucket. -/
def bucketArn (b : Bucket) : String := "arn:aws:s3:::" ++ b.bucketName

/-- Placeholder ARN of the SNS topic (deploy-time value). -/
def snsTopicArn : String :=
  "arn:aws:sns:" ++ regionName ++ ":" ++ accountId ++ ":" ++ sns_topic.constructId

/-- Statement of lines 46-49: Step Functions may publish to the topic. -/
def snsPublishStatement : PolicyStatement :=
  { actions := ["sns:Publish"], resources := [snsTopicArn] }

/-- Statement of lines 134-147: Step Functions may start/inspect the Glue
crawler and ETL job. -/
def glueActionsStatement : PolicyStatement :=
  { actions :=
      ["glue:StartCrawler", "glue:GetCrawler", "glue:StartJobRun", "glue:GetJobRun", "glue:GetJob"]
  , resources :=
      [ "arn:aws:glue:" ++ regionName ++ ":" ++ accountId ++ ":crawler/" ++ glue_crawler.name
      , "arn:aws:glue:" ++ regionName ++ ":" ++ accountId ++ ":job/" ++ glue_job.name
      , "arn:aws:glue:" ++ regionName ++ ":" ++ accountId ++ ":catalog" ] }

/-- `step_function_role` (lines 40-49 and 134-147). -/
def step_function_role : RoleDef :=
  { constructId := "CDKStepFunctionRole"
  , assumedBy := "states.amazonaws.com"
  , managedPolicies := []
  , inlineStatements := [snsPublishStatement, glueActionsStatement] }

/-- `glue_role` (lines 52-65): only the two managed policies are attached;
the scoped bucket statement of lines 66-76 is commented out in the source. -/
def glue_role : RoleDef :=
  { constructId := "CDKGlueRole"
  , assumedBy := "glue.amazonaws.com"
  , managedPolicies := [awsGlueServiceRole, amazonS3FullAccess]
  , inlineStatements := [] }

/-! ## Step Functions tasks (source lines 150-184) -/

/-- Service integration pattern of a Step Functions task state.
`runJob` is the `.sync` run-and-wait pattern; `requestResponse` completes
as soon as the underlying API call returns. -/
inductive IntegrationPattern where
  | requestResponse
  | runJob
  | waitForTaskToken
deriving DecidableEq

/-- `tasks.CallAwsService` (lines 151-160).  CDK's `CallAwsService` always
uses the plain SDK integration (request/response); the field records that
default. -/
structure CallAwsServiceTask where
  service : String
  action : String
  parameters : List (String × String)
  iamResources : List String
  resultPath : String
  integrationPattern : IntegrationPattern
deriving DecidableEq

def start_crawler_task : CallAwsServiceTask :=
  { service := "Glue"
  , action := "startCrawler"
  , parameters := [("Name", glue_crawler.name)]
  , iamResources := ["*"]
  , resultPath := "$.crawler"
  , integrationPattern := .requestResponse }

/-- `tasks.GlueStartJobRun` (lines 162-173), with
`integration_pattern=sfn.IntegrationPattern.RUN_JOB` and the explicit
argument map. -/
structure GlueStartJobRunTask where
  glueJobName : String
  integrationPattern : IntegrationPattern
  arguments : List (String × String)
  resultPath : String
deriving DecidableEq

def start_etl_job_task : GlueStartJobRunTask :=
  { glueJobName := glue_job.name
  , integrationPattern := .runJob
  , arguments :=
      [ ("--job-bookmark-option", "job-bookmark-enable")
      , ("--enable-metrics", "")
      , ("--source_bucket", source_bucket.bucketName)
      , ("--destination_bucket", transformed_bucket.bucketName) ]
  , resultPath := "$.etl_job" }

/-- `tasks.SnsPublish` (lines 181-184): the target topic and the message,
which is built with `sfn.TaskInput.from_text(...)`, i.e. a fixed literal
that does not reference the execution input. -/
structure SnsPublishTask where
  topic : Topic
  message : String
deriving DecidableEq

def publish_sns_task : SnsPublishTask :=
  { topic := sns_topic
  , message := "The Glue ETL job and Crawler have completed successfully!" }

/-! ## State machine definition (source lines 176-194)

In the source, every branch of the `Parallel` state is a single task
state, so branches are modelled as one task node each. -/

/-- The kind of a task state in the workflow. -/
inductive TaskKind where
  | callAws : CallAwsServiceTask → TaskKind
  | glueRun : GlueStartJobRunTask → TaskKind
  | snsSend : SnsPublishTask → TaskKind
deriving DecidableEq

/-- A named task state. -/
structure TaskNode where
  name : String
  kind : TaskKind
deriving DecidableEq

def startCrawlerNode : TaskNode :=
  { name := "StartCrawlerTask", kind := .callAws start_crawler_task }

def startEtlJobNode : TaskNode :=
  { name := "StartETLJobTask", kind := .glueRun start_etl_job_task }

def publishSnsNode : TaskNode :=
  { name := "PublishSNSTask", kind := .snsSend publish_sns_task }

/-- A state of the workflow definition: a task state, or a Parallel state
holding its branches. -/
inductive SfnState where
  | taskState : TaskNode → SfnState
  | par : String → List TaskNode → SfnState
deriving DecidableEq

/-- A chain of states, executed in sequence (`.next` in CDK). -/
abbrev Chain := List SfnState

/-- `sfn.Parallel(self, "ParallelExecution")` before any `.branch` call. -/
def parallelEmpty : SfnState := .par "ParallelExecution" []

/-- `parallel.branch(task)`: appends a branch to a Parallel state, and is
the identity on task states. -/
def SfnState.branch : SfnState → TaskNode → SfnState
  | .par n bs, t => .par n (bs ++ [t])
  | .taskState t, _ => .taskState t

/-- `parallel` after the two `.branch` calls of lines 177-178. -/
def parallel : SfnState :=
  (parallelEmpty.branch startCrawlerNode).branch startEtlJobNode

/-- `state_machine_definition = parallel.next(publish_sns_task)` (line 187). -/
def state_machine_definition : Chain :=
  [parallel, .taskState publishSnsNode]

/-- `sfn.StateMachine` (lines 190-194): definition, 15 minute timeout,
the Step Functions role. -/
structure StateMachine where
  definition : Chain
  timeoutMinutes : Nat
  role : RoleDef
deriving DecidableEq

def state_machine : StateMachine :=
  { definition := state_machine_definition
  , timeoutMinutes := 15
  , role := step_function_role }

/-! ### The definition as a graph -/

/-- Name of a state. -/
def stateName : SfnState → String
  | .taskState t => t.name
  | .par n _ => n

/-- Names of the nodes contained in a state's branches. -/
def branchNames : SfnState → List String
  | .taskState _ => []
  | .par _ bs => bs.map TaskNode.name

/-- All node names of a chain: top-level states and branch nodes. -/
def allNodeNames (c : Chain) : List String :=
  c.foldr (fun s acc => (stateName s :: branchNames s) ++ acc) []

/-- Sequencing edges between consecutive top-level states of a chain. -/
def seqEdges : Chain → List (String × String)
  | [] => []
  | [_] => []
  | s :: t :: rest => (stateName s, stateName t) :: seqEdges (t :: rest)

/-- Containment edges from a Parallel state to the head of each branch. -/
def stateBranchEdges : SfnState → List (String × String)
  | .taskState _ => []
  | .par n bs => bs.map fun b => (n, b.name)

/-- The edge list of the workflow graph of a chain. -/
def wfEdges (c : Chain) : List (String × String) :=
  seqEdges c ++ c.foldr (fun s acc => stateBranchEdges s ++ acc) []

/-- Successors of a node in an edge list. -/
def succsOf (es : List (String × String)) (x : String) : List String :=
  (es.filter fun p => p.1 == x).map Prod.snd

/-- One step of reachability from a frontier of nodes. -/
def stepFrontier (es : List (String × String)) (front : List String) : List String :=
  front.foldr (fun x acc => succsOf es x ++ acc) []

/-- Nodes reachable from `front` in at most `n` further steps (including
`front` itself). -/
def reachIter (es : List (String × String)) : Nat → List String → List String
  | 0, front => front
  | n + 1, front => front ++ reachIter es n (stepFrontier es front)

/-- Cycle test: some node reaches itself along at least one edge within
as many steps as there are nodes. -/
def hasCycle (es : List (String × String)) (nodes : List String) : Bool :=
  nodes.any fun x => (reachIter es nodes.length (succsOf es x)).contains x

/-- Top-level states of a chain with no outgoing sequencing edge. -/
def terminalTop (c : Chain) : List String :=
  (c.map stateName).filter fun x => !(seqEdges c).any fun p => p.1 == x

/-! ## EventBridge rule (source lines 196-213) -/

/-- The shape of an inbound storage event as far as the rule's pattern
inspects it: source service, detail-type, and `detail.bucket.name`. -/
structure S3Event where
  source : String
  detailType : String
  bucketName : String
deriving DecidableEq

/-- The declared `events.EventPattern`: each field lists the admissible
values (EventBridge semantics: every present field must match one of its
listed values). -/
structure EventPattern where
  sources : List String
  detailTypes : List String
  bucketNames : List String
deriving DecidableEq

/-- EventBridge pattern matching on the modelled event shape. -/
def EventPattern.matches (p : EventPattern) (e : S3Event) : Bool :=
  p.sources.contains e.source &&
  p.detailTypes.contains e.detailType &&
  p.bucketNames.contains e.bucketName

/-- `events.Rule(self, "S3ObjectCreatedRule", event_pattern=...)` with its
target list (`rule.add_target(targets.SfnStateMachine(state_machine))`). -/
structure RuleDef where
  eventPattern : EventPattern
  targets : List StateMachine
deriving DecidableEq

def rule : RuleDef :=
  { eventPattern :=
      { sources := ["aws.s3"]
      , detailTypes := ["Object Created"]
      , bucketNames := [source_bucket.bucketName] }
  , targets := [state_machine] }

/-- An event starts a workflow execution exactly when the rule's pattern
matches it. -/
def startsExecution (e : S3Event) : Bool :=
  rule.eventPattern.matches e

/-- Action taken by the eventing layer for an inbound event. -/
inductive RuleEffect where
  | startWorkflowExecution : S3Event → RuleEffect
deriving DecidableEq

/-- Effects of the rule on an inbound event: one execution start, carrying
the event payload as initial input, on a match; nothing otherwise. -/
def ruleEffects (e : S3Event) : List RuleEffect :=
  if startsExecution e then [.startWorkflowExecution e] else []

/-! ## Execution semantics of the declared workflow

Standard Step Functions semantics, instantiated at the configuration
declared above: the chain runs its states in order; the Parallel state
succeeds exactly when every branch succeeds; the crawler branch is a plain
request/response call (it completes when the StartCrawler call is
accepted); the ETL branch runs the Glue job synchronously with the job's
retry budget (`max_retries`) and job timeout; the whole execution is cut
off by the state machine's 15 minute timeout. -/

/-- Outcome of one external call or of a branch. -/
inductive CallOutcome where
  | ok
  | err
deriving DecidableEq

/-- One run attempt of the Glue job in the external engine: how long it
ran (minutes) and whether it completed successfully within that time. -/
structure AttemptRun where
  durationMinutes : Nat
  completesOk : Bool
deriving DecidableEq

/-- Outcome of a single job attempt under the job's configured timeout:
an attempt running past `timeout` minutes is killed and fails. -/
def attemptOutcome (job : CfnJob) (a : AttemptRun) : CallOutcome :=
  if job.timeoutMinutes < a.durationMinutes then .err
  else if a.completesOk then .ok else .err

/-- The external world an execution runs against. -/
structure Env where
  /-- Outcome of the StartCrawler API call. -/
  startCrawlerCall : CallOutcome
  /-- Whether the crawl itself eventually succeeds, after being started
  (an external fact; the workflow never reads it). -/
  crawlerRunOk : Bool
  /-- The i-th attempt of the Glue ETL job (0-indexed). -/
  etlRuns : Nat → AttemptRun
  /-- Outcome of the SNS Publish call. -/
  publishCall : CallOutcome
  /-- Wall-clock minutes the execution would need to reach its end. -/
  elapsedMinutes : Nat

/-- Run up to `fuel` attempts of the job, starting at attempt index `i`:
the first successful attempt ends the run; exhausting the budget fails. -/
def runAttempts (job : CfnJob) (runs : Nat → AttemptRun) : Nat → Nat → CallOutcome
  | 0, _ => .err
  | fuel + 1, i =>
    match attemptOutcome job (runs i) with
    | .ok => .ok
    | .err => runAttempts job runs fuel (i + 1)

/-- Number of attempts actually consumed by `runAttempts`. -/
def countAttempts (job : CfnJob) (runs : Nat → AttemptRun) : Nat → Nat → Nat
  | 0, _ => 0
  | fuel + 1, i =>
    match attemptOutcome job (runs i) with
    | .ok => 1
    | .err => 1 + countAttempts job runs fuel (i + 1)

/-- Attempts the ETL job consumes in an execution: the job is retried
`max_retries` times after the initial attempt. -/
def attemptsUsed (env : Env) : Nat :=
  countAttempts glue_job env.etlRuns (glue_job.maxRetries + 1) 0

/-- Outcome of one task node against the environment.  A request/response
`CallAwsService` task completes with the API call itself; the synchronous
`GlueStartJobRun` task runs the job (named `glue_job.name` in this stack)
to a terminal state, with the job's retry budget; `SnsPublish` completes
with the Publish call. -/
def runTaskNode (env : Env) (t : TaskNode) : CallOutcome :=
  match t.kind with
  | .callAws _ => env.startCrawlerCall
  | .glueRun _ => runAttempts glue_job env.etlRuns (glue_job.maxRetries + 1) 0
  | .snsSend _ => env.publishCall

/-- Outcome of a state: a Parallel state succeeds exactly when all of its
branches succeed (fail-fast otherwise). -/
def runState (env : Env) : SfnState → CallOutcome
  | .taskState t => runTaskNode env t
  | .par _ bs => if bs.all (fun t => runTaskNode env t == .ok) then .ok else .err

/-- Outcome of a chain: states run in sequence, stopping at the first
failure. -/
def runChain (env : Env) : Chain → CallOutcome
  | [] => .ok
  | s :: rest =>
    match runState env s with
    | .ok => runChain env rest
    | .err => .err

/-- Names of the top-level states an execution actually enters: each state
is entered in order until one fails. -/
def enteredTrace (env : Env) : Chain → List String
  | [] => []
  | s :: rest =>
    stateName s ::
      (match runState env s with
       | .ok => enteredTrace env rest
       | .err => [])

/-- Whether the execution's wall clock exceeds the state machine timeout. -/
def executionTimedOut (env : Env) : Bool :=
  state_machine.timeoutMinutes < env.elapsedMinutes

/-- Terminal result of an execution. -/
inductive ExecResult where
  | succeeded
  | failed
  | timedOut
deriving DecidableEq

/-- Terminal result of running the declared state machine against `env`. -/
def executionResult (env : Env) : ExecResult :=
  if executionTimedOut env then .timedOut
  else
    match runChain env state_machine.definition with
    | .ok => .succeeded
    | .err => .failed

/-- Outcome of the crawler branch of the Parallel state. -/
def crawlBranchOutcome (env : Env) : CallOutcome :=
  runTaskNode env startCrawlerNode

/-- Outcome of the ETL branch of the Parallel state. -/
def etlBranchOutcome (env : Env) : CallOutcome :=
  runTaskNode env startEtlJobNode

/-- Whether the Notify (SNS publish) state runs in the execution: the
execution does not time out and the publish state is entered. -/
def notifyRuns (env : Env) : Bool :=
  !executionTimedOut env &&
    (enteredTrace env state_machine.definition).contains publishSnsNode.name

/-- Messages actually published by a task node: only a successful Publish
call of an SNS task emits one, carrying the task's fixed text to its
topic. -/
def taskMessages (env : Env) (t : TaskNode) : List (Topic × String) :=
  match t.kind with
  | .snsSend p => if env.publishCall == .ok then [(p.topic, p.message)] else []
  | .callAws _ => []
  | .glueRun _ => []

/-- Messages published along a chain: task states that are entered
publish; a failed state stops the chain; Parallel branches of this stack
contain no SNS task. -/
def chainMessages (env : Env) : Chain → List (Topic × String)
  | [] => []
  | s :: rest =>
    match s with
    | .taskState t =>
      taskMessages env t ++
        (match runState env s with
         | .ok => chainMessages env rest
         | .err => [])
    | .par _ _ =>
      match runState env s with
      | .ok => chainMessages env rest
      | .err => []

/-- Messages published by an execution: none if it times out (the timeout
forces termination before the Notify state), otherwise those of the chain. -/
def messagesPublished (env : Env) : List (Topic × String) :=
  if executionTimedOut env then [] else chainMessages env state_machine.definition

/-- Minutes an execution actually runs: its own wall clock, cut off by the
state machine timeout. -/
def effectiveRunMinutes (env : Env) : Nat :=
  min env.elapsedMinutes state_machine.timeoutMinutes

/-! ## Spec-side comparator for least privilege

`specRequiredGlueS3` follows the spec's words for the minimal S3 access
the Glue principal's steps need (read the source bucket, write the
destination bucket, list both) — it matches the scoped statement that is
commented out at source lines 66-76.  It is the comparator the
least-privilege claim is checked against, not a translation of live code. -/

/-- Whether `resource` lies inside bucket `b`: the bucket's ARN itself or
any object under it. -/
def resourceInBucket (b : Bucket) (resource : String) : Bool :=
  resource == bucketArn b || isPre (bucketArn b ++ "/").toList resource.toList

/-- Spec-words definition: the minimal S3 action/resource pairs required
by the steps assigned to the Glue role (crawler reads the source bucket;
the ETL job reads the source bucket and writes the destination bucket). -/
def specRequiredGlueS3 (action resource : String) : Bool :=
  (["s3:GetObject", "s3:PutObject", "s3:ListBucket"].contains action) &&
  (resourceInBucket source_bucket resource || resourceInBucket transformed_bucket resource)

/-! ## Concrete environments used to instantiate the theorems -/

/-- Everything goes right; the ETL job succeeds on its first attempt in
3 minutes; the execution needs 5 minutes. -/
def envAllOk : Env :=
  { startCrawlerCall := .ok
  , crawlerRunOk := true
  , etlRuns := fun _ => { durationMinutes := 3, completesOk := true }
  , publishCall := .ok
  , elapsedMinutes := 5 }

/-- Every ETL attempt runs 11 minutes (past the 10 minute job timeout). -/
def envEtlTimesOut : Env :=
  { startCrawlerCall := .ok
  , crawlerRunOk := true
  , etlRuns := fun _ => { durationMinutes := 11, completesOk := true }
  , publishCall := .ok
  , elapsedMinutes := 12 }

/-- The execution would need 16 minutes, past the 15 minute timeout. -/
def envSlow : Env :=
  { startCrawlerCall := .ok
  , crawlerRunOk := true
  , etlRuns := fun _ => { durationMinutes := 3, completesOk := true }
  , publishCall := .ok
  , elapsedMinutes := 16 }

/-- An "Object Created" event on the transformed (destination) bucket. -/
def eventOnTransformed : S3Event :=
  { source := "aws.s3"
  , detailType := "Object Created"
  , bucketName := transformed_bucket.bucketName }

/-! ## Helper lemmas -/

/-- `countAttempts` never exceeds its fuel. -/
lemma countAttempts_le (job : CfnJob) (runs : Nat → AttemptRun) :
    ∀ fuel i, countAttempts job runs fuel i ≤ fuel := by
  intro fuel
  induction fuel with
  | zero => intro i; simp [countAttempts]
  | succ n ih =>
    intro i
    have hle := ih (i + 1)
    cases h : attemptOutcome job (runs i) <;> simp [countAttempts, h]
    all_goals omega

/-- The `Parallel` state, with its branch list computed. -/
lemma parallel_eq :
    parallel = SfnState.par "ParallelExecution" [startCrawlerNode, startEtlJobNode] := rfl

/-- Singleton membership test, as the underlying equality test. -/
lemma contains_singleton (a x : String) : [a].contains x = (x == a) := by
  cases h : x == a <;> simp [List.contains, List.elem, h]

/-- Three-element membership test, as a disjunction of equality tests. -/
lemma contains_triple (x y z a : String) :
    [x, y, z].contains a = (a == x || (a == y || a == z)) := by
  cases h1 : a == x <;> cases h2 : a == y <;> cases h3 : a == z <;>
    simp [List.contains, List.elem, h1, h2, h3]

/-- The Parallel state's outcome is the conjunction of its two branch
outcomes. -/
lemma runState_parallel (env : Env) :
    runState env parallel =
      (if crawlBranchOutcome env == CallOutcome.ok &&
          etlBranchOutcome env == CallOutcome.ok then CallOutcome.ok else CallOutcome.err) := by
  cases hc : runTaskNode env startCrawlerNode <;>
    cases he : runTaskNode env startEtlJobNode <;>
      simp [runState, parallel, parallelEmpty, SfnState.branch, crawlBranchOutcome,
        etlBranchOutcome, hc, he]

/-- The Notify state appears in the entered trace exactly when the
Parallel state succeeds. -/
lemma enteredTrace_contains (env : Env) :
    (enteredTrace env state_machine.definition).contains publishSnsNode.name =
      (runState env parallel == CallOutcome.ok) := by
  rw [parallel_eq]
  simp only [state_machine, state_machine_definition, parallel_eq, enteredTrace]
  cases runState env (SfnState.par "ParallelExecution" [startCrawlerNode, startEtlJobNode]) <;>
    cases runState env (SfnState.taskState publishSnsNode) <;> rfl

/-- `notifyRuns` in terms of the two branch outcomes and the timeout. -/
lemma notifyRuns_eq (env : Env) :
    notifyRuns env =
      (!executionTimedOut env &&
        (crawlBranchOutcome env == CallOutcome.ok &&
          etlBranchOutcome env == CallOutcome.ok)) := by
  unfold notifyRuns
  rw [enteredTrace_contains, runState_parallel]
  cases hb : (crawlBranchOutcome env == CallOutcome.ok &&
      etlBranchOutcome env == CallOutcome.ok) <;> simp [hb]

/-- Value of `runChain` on the declared definition. -/
lemma runChain_eq (env : Env) :
    runChain env state_machine.definition =
      (if runState env parallel = CallOutcome.ok then env.publishCall else CallOutcome.err) := by
  rw [parallel_eq]
  simp only [state_machine, state_machine_definition, parallel_eq, runChain]
  cases runState env (SfnState.par "ParallelExecution" [startCrawlerNode, startEtlJobNode]) <;>
    cases hp : env.publishCall <;>
      simp [runState, runTaskNode, publishSnsNode, hp]

/-- Value of `chainMessages` on the declared definition. -/
lemma chainMessages_eq (env : Env) :
    chainMessages env state_machine.definition =
      (if runState env parallel = CallOutcome.ok then taskMessages env publishSnsNode
       else []) := by
  rw [parallel_eq]
  simp only [state_machine, state_machine_definition, parallel_eq, chainMessages]
  cases runState env (SfnState.par "ParallelExecution" [startCrawlerNode, startEtlJobNode]) <;>
    cases runState env (SfnState.taskState publishSnsNode) <;> simp

/-- Value of `executionResult` on the declared definition. -/
lemma executionResult_eq (env : Env) :
    executionResult env =
      (if executionTimedOut env then ExecResult.timedOut
       else if runState env parallel = CallOutcome.ok then
         (if env.publishCall = CallOutcome.ok then ExecResult.succeeded else ExecResult.failed)
       else ExecResult.failed) := by
  cases ht : executionTimedOut env <;>
    cases h : runState env parallel <;>
      cases hp : env.publishCall <;>
        simp [executionResult, runChain_eq, ht, h, hp]

/-- The rule's predicate, spelled out field by field. -/
lemma startsExecution_iff (e : S3Event) :
    startsExecution e = true ↔
      (e.source = "aws.s3" ∧ e.detailType = "Object Created" ∧
        e.bucketName = source_bucket.bucketName) := by
  simp [startsExecution, rule, EventPattern.matches, contains_singleton,
    Bool.and_eq_true, beq_iff_eq, source_bucket]
  tauto

/-! ## Sanity anchors: the semantics evaluated at concrete environments -/

lemma envAllOk_succeeds : executionResult envAllOk = ExecResult.succeeded := by decide

lemma envAllOk_notifies :
    notifyRuns envAllOk = true ∧
    messagesPublished envAllOk =
      [(sns_topic, "The Glue ETL job and Crawler have completed successfully!")] := by
  constructor <;> rfl

lemma envEtlTimesOut_fails :
    executionResult envEtlTimesOut = ExecResult.failed ∧
    notifyRuns envEtlTimesOut = false ∧
    attemptsUsed envEtlTimesOut = 2 ∧
    messagesPublished envEtlTimesOut = [] := by
  refine ⟨?_, ?_, ?_, ?_⟩ <;> rfl

lemma envSlow_timesOut :
    executionResult envSlow = ExecResult.timedOut ∧ messagesPublished envSlow = [] := by
  constructor <;> rfl

lemma sampleEvents_eval :
    startsExecution
      { source := "aws.s3", detailType := "Object Created"
      , bucketName := "source-bucky-2009-apsouth1" } = true ∧
    startsExecution eventOnTransformed = false := by
  constructor <;> rfl

/-! ## The claims -/

/-- C1: an inbound event starts a workflow execution (with the event
payload as input, the state machine as the rule's sole target) iff its
source is `aws.s3`, its detail-type is "Object Created" and its bucket
name is the configured source bucket's name; a non-matching event causes
no action. -/
theorem trigger_rule_start_iff (e : S3Event) :
    (ruleEffects e = [RuleEffect.startWorkflowExecution e] ↔
      (e.source = "aws.s3" ∧ e.detailType = "Object Created" ∧
        e.bucketName = source_bucket.bucketName)) ∧
    (startsExecution e = false → ruleEffects e = []) ∧
    rule.targets = [state_machine] := by
  refine ⟨?_, ?_, rfl⟩
  · rw [← startsExecution_iff]
    cases hb : startsExecution e <;> simp [ruleEffects, hb]
  · intro hb
    simp [ruleEffects, hb]

/-- C2: the assembled workflow definition is the Parallel root with
exactly the two branches (crawler step, ETL job step) sequentially
followed by the single SNS publish node; the derived graph has no cycle
and exactly one terminal node, the Notify node. -/
theorem workflow_graph_shape :
    state_machine_definition =
      [SfnState.par "ParallelExecution" [startCrawlerNode, startEtlJobNode],
        SfnState.taskState publishSnsNode] ∧
    startCrawlerNode.kind = TaskKind.callAws start_crawler_task ∧
    startEtlJobNode.kind = TaskKind.glueRun start_etl_job_task ∧
    publishSnsNode.kind = TaskKind.snsSend publish_sns_task ∧
    hasCycle (wfEdges state_machine_definition) (allNodeNames state_machine_definition)
      = false ∧
    terminalTop state_machine_definition = [publishSnsNode.name] ∧
    state_machine.definition = state_machine_definition := by
  refine ⟨rfl, rfl, rfl, rfl, by decide, by decide, rfl⟩

/-- C3: in every execution, the Notify step runs iff both parallel
branches reach terminal success and the execution does not time out;
a failed branch or a timeout means Notify does not run. -/
theorem notify_iff_both_branches (env : Env) :
    notifyRuns env = true ↔
      (crawlBranchOutcome env = CallOutcome.ok ∧
        etlBranchOutcome env = CallOutcome.ok ∧
        executionTimedOut env = false) := by
  rw [notifyRuns_eq]
  cases hc : crawlBranchOutcome env <;>
    cases he : etlBranchOutcome env <;>
      cases ht : executionTimedOut env <;> simp [hc, he, ht]

/-- C4: the ETL task runs the batch job synchronously (`RUN_JOB`); the
job's budget is `max_retries = 1` (at most two attempts, never a third)
and a 10-minute job timeout; an attempt running past 10 minutes fails,
and two consecutive failed attempts fail the branch, the Parallel node,
and suppress Notify. -/
theorem etl_retry_and_timeout (env : Env) :
    start_etl_job_task.integrationPattern = IntegrationPattern.runJob ∧
    glue_job.maxRetries = 1 ∧
    glue_job.timeoutMinutes = 10 ∧
    attemptsUsed env ≤ 2 ∧
    (∀ a : AttemptRun, 10 < a.durationMinutes →
      attemptOutcome glue_job a = CallOutcome.err) ∧
    (attemptOutcome glue_job (env.etlRuns 0) = CallOutcome.err →
      attemptOutcome glue_job (env.etlRuns 1) = CallOutcome.err →
        etlBranchOutcome env = CallOutcome.err ∧
        runState env parallel = CallOutcome.err ∧
        notifyRuns env = false) := by
  refine ⟨rfl, rfl, rfl, countAttempts_le glue_job env.etlRuns 2 0, ?_, ?_⟩
  · intro a ha
    simp [attemptOutcome, glue_job, ha]
  · intro h0 h1
    have he : etlBranchOutcome env = CallOutcome.err := by
      show runAttempts glue_job env.etlRuns 2 0 = CallOutcome.err
      simp [runAttempts, h0, h1]
    refine ⟨he, ?_, ?_⟩
    · rw [runState_parallel]
      simp [he]
    · rw [notifyRuns_eq]
      simp [he]

/-- C5: the crawl branch is fire-and-forget: the crawler task is a plain
request/response `CallAwsService` call of Glue `startCrawler`, its branch
outcome is exactly the outcome of the start call, and whether the crawl
itself later succeeds is never observed — it changes neither any branch
outcome nor the execution result nor the published messages. -/
theorem crawler_fire_and_forget (env : Env) (b : Bool) :
    start_crawler_task.integrationPattern = IntegrationPattern.requestResponse ∧
    start_crawler_task.service = "Glue" ∧
    start_crawler_task.action = "startCrawler" ∧
    crawlBranchOutcome env = env.startCrawlerCall ∧
    crawlBranchOutcome { env with crawlerRunOk := b } = crawlBranchOutcome env ∧
    etlBranchOutcome { env with crawlerRunOk := b } = etlBranchOutcome env ∧
    executionResult { env with crawlerRunOk := b } = executionResult env ∧
    messagesPublished { env with crawlerRunOk := b } = messagesPublished env := by
  exact ⟨rfl, rfl, rfl, rfl, rfl, rfl, rfl, rfl⟩

/-- C6: the state machine is configured with a 15-minute execution
timeout: an execution never runs longer than 15 minutes, and any
execution that would need more wall clock than that terminates as
`timedOut` regardless of branch progress. -/
theorem execution_timeout_bound (env : Env) :
    state_machine.timeoutMinutes = 15 ∧
    effectiveRunMinutes env ≤ 15 ∧
    (15 < env.elapsedMinutes → executionResult env = ExecResult.timedOut) := by
  refine ⟨rfl, ?_, ?_⟩
  · exact Nat.min_le_right env.elapsedMinutes 15
  · intro h
    have ht : executionTimedOut env = true := by
      simp [executionTimedOut, state_machine]
      exact h
    simp [executionResult, ht]

/-- C7 (counterexample to the claim as stated): the Glue role's grants
contain an action/resource pair — `s3:DeleteBucket` on a bucket unrelated
to the pipeline — that no step assigned to it requires, so the grant set
is not the minimal required set. -/
theorem least_privilege_counterexample :
    glue_role.allows "s3:DeleteBucket" "arn:aws:s3:::unrelated-bucket" = true ∧
    specRequiredGlueS3 "s3:DeleteBucket" "arn:aws:s3:::unrelated-bucket" = false := by
  constructor <;> rfl

/-- C7 (amended): the Glue role's grants are sufficient — every
action/resource pair the spec's minimal set requires is granted — but not
minimal: through the attached `AmazonS3FullAccess` managed policy the
role may invoke every S3 action on every resource, including pairs no
step assigned to it requires. -/
theorem glue_role_grants_exceed_required :
    (∀ a r, specRequiredGlueS3 a r = true → glue_role.allows a r = true) ∧
    glue_role.allows "s3:DeleteBucket" "arn:aws:s3:::unrelated-bucket" = true ∧
    specRequiredGlueS3 "s3:DeleteBucket" "arn:aws:s3:::unrelated-bucket" = false := by
  refine ⟨?_, rfl, rfl⟩
  intro a r h
  simp only [specRequiredGlueS3, contains_triple, Bool.and_eq_true, Bool.or_eq_true,
    beq_iff_eq] at h
  obtain ⟨ha, -⟩ := h
  have hstar : patMatches "*" r = true := rfl
  have h1 : patMatches "s3:*" "s3:GetObject" = true := rfl
  have h2 : patMatches "s3:*" "s3:PutObject" = true := rfl
  have h3 : patMatches "s3:*" "s3:ListBucket" = true := rfl
  rcases ha with rfl | rfl | rfl <;>
    simp [RoleDef.allows, RoleDef.statements, glue_role, amazonS3FullAccess,
      awsGlueServiceRole, hstar, h1, h2, h3]

/-- C8: the batch-job invocation passes exactly the four declared
arguments — bookmark option, metrics flag, and the configured source and
transformed bucket names — and the job's default arguments agree with
them. -/
theorem etl_job_arguments_exact :
    start_etl_job_task.arguments =
      [ ("--job-bookmark-option", "job-bookmark-enable")
      , ("--enable-metrics", "")
      , ("--source_bucket", "source-bucky-2009-apsouth1")
      , ("--destination_bucket", "transform-bucky-2009-apsouth1") ] ∧
    start_etl_job_task.arguments.length = 4 ∧
    source_bucket.bucketName = "source-bucky-2009-apsouth1" ∧
    transformed_bucket.bucketName = "transform-bucky-2009-apsouth1" ∧
    glue_job.defaultArguments = start_etl_job_task.arguments ∧
    start_etl_job_task.glueJobName = glue_job.name := by
  exact ⟨rfl, rfl, rfl, rfl, rfl, rfl⟩

/-- C9: the Notify step's message is the fixed literal text, addressed to
the configured topic; every message an execution publishes is that fixed
pair, a non-successful execution publishes nothing, and a successful one
publishes exactly the fixed message once. -/
theorem notify_fixed_message_success_only (env : Env) :
    publish_sns_task.message =
      "The Glue ETL job and Crawler have completed successfully!" ∧
    publish_sns_task.topic = sns_topic ∧
    (∀ m ∈ messagesPublished env, m = (sns_topic, publish_sns_task.message)) ∧
    (executionResult env ≠ ExecResult.succeeded → messagesPublished env = []) ∧
    (executionResult env = ExecResult.succeeded →
      messagesPublished env = [(sns_topic, publish_sns_task.message)]) := by
  have hres := executionResult_eq env
  have hmsg : messagesPublished env =
      (if executionTimedOut env then []
       else if runState env parallel = CallOutcome.ok then taskMessages env publishSnsNode
       else []) := by
    unfold messagesPublished
    rw [chainMessages_eq]
  refine ⟨rfl, rfl, ?_, ?_, ?_⟩ <;>
  · rw [hmsg]
    cases ht : executionTimedOut env <;>
      cases h : runState env parallel <;>
        cases hp : env.publishCall <;>
          simp_all [taskMessages, publishSnsNode, publish_sns_task, hp]

/-- C10: object creation in the transformed (destination) bucket never
starts an execution — the destination bucket is created without
EventBridge notifications, its name differs from the source bucket's, an
event carrying its name fails the rule's predicate, and the concrete
"Object Created in transformed bucket" event produces no effect. -/
theorem no_feedback_from_transformed (e : S3Event) :
    transformed_bucket.eventBridgeEnabled = false ∧
    transformed_bucket.bucketName ≠ source_bucket.bucketName ∧
    (e.bucketName = transformed_bucket.bucketName → startsExecution e = false) ∧
    ruleEffects eventOnTransformed = [] := by
  refine ⟨rfl, by decide, ?_, rfl⟩
  intro h
  cases hb : startsExecution e
  · rfl
  · exfalso
    have := (startsExecution_iff e).mp hb
    rw [h] at this
    exact absurd this.2.2 (by decide)

end Usecase1
